import Mathlib

/-!
Verification of the EMCAL simulation hit record
(`src/Detectors/EMCAL/base/include/EMCALBase/Hit.h`, class `o2::emcal::Hit`).

The header declares the record and its operations; the operator bodies live in
`Hit.cxx`, which is not part of this tree, and the inherited base-record fields
come from `SimulationDataFormat/BaseHits.h`, also absent.  Those parts are
modelled from the specification, as flagged in the doc comments below.
Floating-point scalars are idealised as rationals: every property checked here
is about which fields an operation reads and writes, not about rounding.
-/

namespace EMCALHit

/-- The hit record.  The fields `posX`/`posY`/`posZ` (cartesian position),
`timeOfFlight` and `energyLoss` together with `trackId` and
`detectorSegmentId` are the inherited base-record fields
(`o2::BasicXYZEHit<float>`, constructed in `Hit.h` lines 46-53); `momX`/`momY`/
`momZ` model `mPvector`, and `mPrimary`, `mInitialEnergy` are the remaining
members declared in `Hit.h` lines 92-94. -/
structure Hit where
  posX : Rat
  posY : Rat
  posZ : Rat
  timeOfFlight : Rat
  energyLoss : Rat
  trackId : Int
  detectorSegmentId : Int
  momX : Rat
  momY : Rat
  momZ : Rat
  mPrimary : Int
  mInitialEnergy : Rat
deriving DecidableEq, Repr

/-- Modelled from the spec: the body of `o2::emcal::Hit::operator==` (declared
at `Hit.h` lines 55-57) lives in `Hit.cxx`, which is missing from this tree.
Per the spec, two records are equal iff they share the same `trackId` and the
same `detectorSegmentId`. -/
def hitEq (a b : Hit) : Bool :=
  a.trackId == b.trackId && a.detectorSegmentId == b.detectorSegmentId

/-- Modelled from the spec: the body of `o2::emcal::Hit::operator<` (declared
at `Hit.h` lines 59-61) lives in `Hit.cxx`, which is missing from this tree.
Per the spec, the order is lexicographic, first by `trackId`, then by
`detectorSegmentId`. -/
def hitLt (a b : Hit) : Bool :=
  decide (a.trackId < b.trackId) ||
    (a.trackId == b.trackId && decide (a.detectorSegmentId < b.detectorSegmentId))

/-- Modelled from the spec: the body of `o2::emcal::Hit::operator+=` (declared
at `Hit.h` lines 63-66) lives in `Hit.cxx`, which is missing from this tree.
Per the spec, it adds the energy loss of the other point to this point and
leaves every other field of the receiver unchanged.  This is the resulting
state of the receiver. -/
def hitAccumulate (a b : Hit) : Hit :=
  { a with energyLoss := a.energyLoss + b.energyLoss }

/-- Modelled from the spec: the body of the free `o2::emcal::operator+`
(declared at `Hit.h` lines 99-103) lives in `Hit.cxx`, which is missing from
this tree.  Per the spec, it creates a new point based on `lhs` with
`energyLoss = lhs.energyLoss + rhs.energyLoss`, without mutating either
input. -/
def hitSum (lhs rhs : Hit) : Hit :=
  { lhs with energyLoss := lhs.energyLoss + rhs.energyLoss }

/-- The full call `lhs += rhs`.  The C++ signature (`Hit.h` line 66) takes the
argument by const reference and returns a reference to the receiver, so the
call is modelled as producing the final state of the receiver, the final state
of the argument, and the value the returned reference denotes. -/
def accumulateCall (lhs rhs : Hit) : Hit × Hit × Hit :=
  (hitAccumulate lhs rhs, rhs, hitAccumulate lhs rhs)

/-- The full call `lhs + rhs`.  The C++ signature (`Hit.h` line 103) takes
both arguments by const reference and returns a fresh value, so the call is
modelled as producing the result together with the final states of both
arguments. -/
def sumCall (lhs rhs : Hit) : Hit × Hit × Hit :=
  (hitSum lhs rhs, lhs, rhs)

/-- Default construction `Hit() = default` (`Hit.h` line 31).  The scalar
members `mPrimary` and `mInitialEnergy` (`Hit.h` lines 93-94) carry no member
initialisers, so default construction leaves them indeterminate; they are made
explicit as the `junk*` parameters.  `mPvector` (`Hit.h` line 92) is a
class-type member, so its own default constructor runs.  Modelled from the
spec: the momentum vector's constructor and the inherited base record come
from code missing from this tree (`math_utils` and `BaseHits.h`), and the spec
makes the default a zero/empty record with unspecified merge key — so momentum,
position, time of flight and energy loss are zero while `trackId` and
`detectorSegmentId` are further `junk*` parameters. -/
def defaultHit (junkTrackId junkDetId junkPrimary : Int)
    (junkInitialEnergy : Rat) : Hit :=
  { posX := 0, posY := 0, posZ := 0, timeOfFlight := 0, energyLoss := 0,
    trackId := junkTrackId, detectorSegmentId := junkDetId,
    momX := 0, momY := 0, momZ := 0,
    mPrimary := junkPrimary, mInitialEnergy := junkInitialEnergy }

/-- A sample hit, as in the spec's example scenario. -/
def hExA : Hit :=
  { posX := 1, posY := 2, posZ := 3, timeOfFlight := 1/2, energyLoss := 2,
    trackId := 5, detectorSegmentId := 10, momX := 0, momY := 0, momZ := 1,
    mPrimary := 1, mInitialEnergy := 100 }

/-- A sample hit with a merge key differing from `hExA`. -/
def hExC : Hit :=
  { posX := 9, posY := 9, posZ := 9, timeOfFlight := 99/10, energyLoss := 3,
    trackId := 7, detectorSegmentId := 10, momX := 0, momY := 0, momZ := 0,
    mPrimary := 1, mInitialEnergy := 100 }

/-- C1: `equals(a,b)` returns true iff `a` and `b` have the same `trackId` and
the same `detectorSegmentId`; position, energy, momentum and time play no role
in equality. -/
theorem hit_eq_iff_merge_key (a b : Hit) :
    hitEq a b = true ↔
      a.trackId = b.trackId ∧ a.detectorSegmentId = b.detectorSegmentId := by
  simp [hitEq]

/-- C2: `lessThan(a,b)` holds exactly when `a.trackId < b.trackId`, or
`a.trackId = b.trackId` and `a.detectorSegmentId < b.detectorSegmentId` — a
lexicographic order comparing `trackId` before `detectorSegmentId`. -/
theorem hit_lt_iff_lex (a b : Hit) :
    hitLt a b = true ↔
      a.trackId < b.trackId ∨
        (a.trackId = b.trackId ∧ a.detectorSegmentId < b.detectorSegmentId) := by
  simp [hitLt]

/-- C3: `sum(a,b)` returns a record whose `energyLoss` equals
`a.energyLoss + b.energyLoss`. -/
theorem hit_sum_energyLoss (a b : Hit) :
    (hitSum a b).energyLoss = a.energyLoss + b.energyLoss := rfl

/-- C4: the merged record — the result of `sum(a,b)` and the receiver after
`accumulate(a,b)` — keeps `a`'s `trackId`, `detectorSegmentId`, position,
`timeOfFlight`, momentum, `primary` and `initialEnergy` unchanged; only
`energyLoss` differs from `a`. -/
theorem hit_merge_preserves_identity (a b : Hit) :
    ((hitSum a b).trackId = a.trackId ∧
     (hitSum a b).detectorSegmentId = a.detectorSegmentId ∧
     (hitSum a b).posX = a.posX ∧ (hitSum a b).posY = a.posY ∧
     (hitSum a b).posZ = a.posZ ∧
     (hitSum a b).timeOfFlight = a.timeOfFlight ∧
     (hitSum a b).momX = a.momX ∧ (hitSum a b).momY = a.momY ∧
     (hitSum a b).momZ = a.momZ ∧
     (hitSum a b).mPrimary = a.mPrimary ∧
     (hitSum a b).mInitialEnergy = a.mInitialEnergy) ∧
    ((hitAccumulate a b).trackId = a.trackId ∧
     (hitAccumulate a b).detectorSegmentId = a.detectorSegmentId ∧
     (hitAccumulate a b).posX = a.posX ∧ (hitAccumulate a b).posY = a.posY ∧
     (hitAccumulate a b).posZ = a.posZ ∧
     (hitAccumulate a b).timeOfFlight = a.timeOfFlight ∧
     (hitAccumulate a b).momX = a.momX ∧ (hitAccumulate a b).momY = a.momY ∧
     (hitAccumulate a b).momZ = a.momZ ∧
     (hitAccumulate a b).mPrimary = a.mPrimary ∧
     (hitAccumulate a b).mInitialEnergy = a.mInitialEnergy) := by
  exact ⟨⟨rfl, rfl, rfl, rfl, rfl, rfl, rfl, rfl, rfl, rfl, rfl⟩,
         ⟨rfl, rfl, rfl, rfl, rfl, rfl, rfl, rfl, rfl, rfl, rfl⟩⟩

/-- C5: the call `sum(a,b)` leaves both arguments unchanged in every field,
and the call `accumulate(a,b)` leaves `b` unchanged and changes only
`a.energyLoss`, leaving every other field of `a` unchanged. -/
theorem hit_sum_nonmutating_accumulate_frame (a b : Hit) :
    (sumCall a b).2.1 = a ∧ (sumCall a b).2.2 = b ∧
    (accumulateCall a b).2.1 = b ∧
    ((accumulateCall a b).1.trackId = a.trackId ∧
     (accumulateCall a b).1.detectorSegmentId = a.detectorSegmentId ∧
     (accumulateCall a b).1.posX = a.posX ∧
     (accumulateCall a b).1.posY = a.posY ∧
     (accumulateCall a b).1.posZ = a.posZ ∧
     (accumulateCall a b).1.timeOfFlight = a.timeOfFlight ∧
     (accumulateCall a b).1.momX = a.momX ∧
     (accumulateCall a b).1.momY = a.momY ∧
     (accumulateCall a b).1.momZ = a.momZ ∧
     (accumulateCall a b).1.mPrimary = a.mPrimary ∧
     (accumulateCall a b).1.mInitialEnergy = a.mInitialEnergy) := by
  exact ⟨rfl, rfl, rfl,
         ⟨rfl, rfl, rfl, rfl, rfl, rfl, rfl, rfl, rfl, rfl, rfl⟩⟩

/-- C6: `lessThan` is a strict weak ordering: it is irreflexive, asymmetric
and transitive. -/
theorem hit_lt_strict_weak_order (a b c : Hit) :
    ¬ hitLt a a = true ∧
    (hitLt a b = true → ¬ hitLt b a = true) ∧
    (hitLt a b = true → hitLt b c = true → hitLt a c = true) := by
  simp only [hitLt, Bool.or_eq_true, Bool.and_eq_true, beq_iff_eq,
    decide_eq_true_eq]
  omega

/-- C7: `equals(a,b)` holds iff neither `lessThan(a,b)` nor `lessThan(b,a)`
holds — the equivalence induced by the ordering coincides with equality. -/
theorem hit_eq_iff_incomparable (a b : Hit) :
    hitEq a b = true ↔ (¬ hitLt a b = true ∧ ¬ hitLt b a = true) := by
  simp only [hitEq, hitLt, Bool.or_eq_true, Bool.and_eq_true, beq_iff_eq,
    decide_eq_true_eq]
  omega

/-- C8: the merge operations are total: even when the merge keys of `a` and
`b` differ (`equals(a,b)` is false), `accumulate` and `sum` still perform the
energy addition and return a result; no operation signals an error. -/
theorem hit_merge_total_on_mismatched_keys (a b : Hit) (h : hitEq a b = false) :
    (hitAccumulate a b).energyLoss = a.energyLoss + b.energyLoss ∧
    (hitSum a b).energyLoss = a.energyLoss + b.energyLoss := ⟨rfl, rfl⟩

/-- Witness for C8 at a concrete pair of records with differing merge keys. -/
theorem hit_merge_total_on_mismatched_keys_witness :
    hitEq hExA hExC = false ∧
    ((hitAccumulate hExA hExC).energyLoss = hExA.energyLoss + hExC.energyLoss ∧
     (hitSum hExA hExC).energyLoss = hExA.energyLoss + hExC.energyLoss) :=
  ⟨by decide, hit_merge_total_on_mismatched_keys hExA hExC (by decide)⟩

/-- C9 counterexample: the claim that every field of a default-constructed
record is zero fails — `mPrimary` carries no member initialiser, so a default
construction over memory holding `1` there yields `mPrimary = 1 ≠ 0`. -/
theorem hit_default_not_all_zero :
    (defaultHit 0 0 1 0).mPrimary ≠ 0 := by decide

/-- C9 amended: a default-constructed record has zero position, time of
flight, energy loss and momentum (the momentum vector is a class-type member
whose default constructor runs, giving the spec's zero/empty record), but the
scalar members `mPrimary` and `mInitialEnergy` carry no member initialisers
and are left with whatever indeterminate values were present, and the merge
key (`trackId`, `detectorSegmentId`) is unspecified. -/
theorem hit_default_fields (jt jd jp : Int) (je : Rat) :
    (defaultHit jt jd jp je).posX = 0 ∧
    (defaultHit jt jd jp je).posY = 0 ∧
    (defaultHit jt jd jp je).posZ = 0 ∧
    (defaultHit jt jd jp je).timeOfFlight = 0 ∧
    (defaultHit jt jd jp je).energyLoss = 0 ∧
    (defaultHit jt jd jp je).momX = 0 ∧
    (defaultHit jt jd jp je).momY = 0 ∧
    (defaultHit jt jd jp je).momZ = 0 ∧
    (defaultHit jt jd jp je).trackId = jt ∧
    (defaultHit jt jd jp je).detectorSegmentId = jd ∧
    (defaultHit jt jd jp je).mPrimary = jp ∧
    (defaultHit jt jd jp je).mInitialEnergy = je := by
  exact ⟨rfl, rfl, rfl, rfl, rfl, rfl, rfl, rfl, rfl, rfl, rfl, rfl⟩

/-- C10: after `a += b` the receiver is field-for-field equal to the record
`sum(a_before, b)` returns, and `operator+=` returns a reference to the
receiver itself. -/
theorem hit_accumulate_refines_sum (a b : Hit) :
    (accumulateCall a b).1 = hitSum a b ∧
    (accumulateCall a b).2.2 = (accumulateCall a b).1 := ⟨rfl, rfl⟩

end EMCALHit
